import Mathlib

/-!
Verification of the cluster node-health reconciler in
`src/middlewared/middlewared/scripts/ctdb_events.py` (class `CtdbEvent`,
methods `monitor` and `startup`).

Shallow embedding conventions:
* The external world visible to one event invocation is an `Env` record:
  the outcome of `init_client` (middleware-started sentinel plus `Client()`
  construction), the outcome of `check_ctdb_shared_volume`, the outcome of
  `load_service_file`, and the control-plane client calls made inside the
  per-service loop (`service.query`, `service.start`).
* `service.start` is invoked with `{'silent': False}` in the source, so a
  failed start surfaces as a raised exception: modelled as
  `Except String Unit`.  `service.stop` and `service.update` are invoked
  without `silent: False` and their return values are discarded by the
  source, so they are modelled as fire-and-forget actions recorded in the
  action trace (the `stop` field of `Env` records the ignored result).
* `time.clock_gettime(time.CLOCK_REALTIME)` is modelled as `Env.clock`
  applied to the index of the monitored-service iteration that reads it.
* Python dict state (`self.node_status` etc.) is an insertion-ordered
  association list; dict item assignment is `setKV` (overwrite in place,
  else append), dict lookup is `lookupKV`, and dict equality (`==` / `!=`
  on the running-state comprehensions) is `dictEq` (same keys, same
  values, order irrelevant).
* An uncaught Python exception is surfaced in the `raised` field of the
  outcome records; calls to `ctdb.event.process` are collected in `events`;
  the per-node status-file write at the end of `monitor` is the `written`
  field (`none` when the tick never reached / skipped the write).
-/

namespace CtdbEvent

/-- One entry of the cluster-wide `.clustered_services` file
(`srv` in the source loops). -/
structure ServiceSpec where
  name : String
  service_enable : Bool
  monitor_enable : Bool
deriving DecidableEq

/-- One entry of the per-node status file: the dict written by
`self.node_status[srv['name']] = {'running': ..., 'last_check': ts, 'error': error}`. -/
structure Obs where
  running : Bool
  last_check : Nat
  error : Option String
deriving DecidableEq

/-- Result of `self.client.call('service.query', ...)`: the fields the
script reads (`state`, `enable`, `id`). -/
structure ServiceInfo where
  state : String
  enable : Bool
  id : Nat
deriving DecidableEq

/-- A payload dict passed to `ctdb.event.process`. -/
structure Payload where
  event : String
  status : String
  reason : Option String
  service : Option String
deriving DecidableEq

/-- Control-plane calls issued by the per-service loop and by `startup`,
in program order. -/
inductive Action where
  | query (name : String)
  | start (name : String)
  | stop (name : String)
  | update (id : Nat) (enable : Bool)
  | restart (name : String)
deriving DecidableEq

/-- Outcome of `load_service_file` for this invocation: a successful load of
the shared config and of the per-node status file, a missing shared file, an
ENOTCONN `OSError`, or any other load failure. -/
inductive LoadOutcome where
  | ok (specs : List ServiceSpec) (prior : List (String × Obs))
  | notFound
  | notConn
  | otherErr
deriving DecidableEq

/-- The external world as seen by one event invocation. -/
structure Env where
  /-- `init_client` result: middleware-started sentinel present and
  `Client()` construction succeeded. -/
  init_ok : Bool
  /-- `check_ctdb_shared_volume` outcome: `none` when it returns normally,
  `some msg` when it raises an exception with message `msg`. -/
  shared_check : Option String
  /-- `os.path.exists(self.ctdb_service_file)` in `startup`. -/
  service_file_exists : Bool
  /-- `load_service_file` outcome. -/
  load : LoadOutcome
  /-- `service.query` on a service name. A `.error` is an exception raised
  by `self.client.call` (for example the client transport dropping). -/
  query : String → Except String ServiceInfo
  /-- `service.start` with `{'silent': False}`: `.error e` is the raised
  exception whose message is `e`. -/
  start : String → Except String Unit
  /-- `service.stop` result; the source discards it, so nothing in the
  embedding depends on this field. -/
  stop : String → Bool
  /-- `time.clock_gettime(time.CLOCK_REALTIME)` at the n-th monitored
  iteration of the tick. -/
  clock : Nat → Nat

/-- Modelled from the spec: `CTDB_SERVICE_DEFAULTS`, imported by the script
from `middlewared.plugins.cluster_linux.ctdb_services`, a module not in this
tree.  Spec 4.1: "If the location exists but contains no service config file
yet, return an empty/default mapping without error (first run)" — modelled
as the empty mapping. -/
def CTDB_SERVICE_DEFAULTS : List ServiceSpec := []

/-- Message of the `RuntimeError` raised by `load_service_file` on an
ENOTCONN `OSError`. -/
def enotconnMsg : String :=
  "IO operation on gluster volume fuse mount containing ctdbd metadata failed with ENOTCONN. This may indicate that the volume is not mounted or the mountpoint is otherwise not healthy."

/-- Dict lookup (first occurrence; Python dicts have unique keys). -/
def lookupKV {β : Type} : List (String × β) → String → Option β
  | [], _ => none
  | (k', v) :: rest, k => if k' = k then some v else lookupKV rest k

/-- Python dict item assignment: overwrite in place when the key is
present, append otherwise. -/
def setKV {β : Type} : List (String × β) → String → β → List (String × β)
  | [], k, v => [(k, v)]
  | (k', v') :: rest, k, v =>
    if k' = k then (k, v) :: rest else (k', v') :: setKV rest k v

/-- The dict comprehension `{k: v['running'] for k, v in ....items()}`. -/
def runningMap (m : List (String × Obs)) : List (String × Bool) :=
  m.map (fun p => (p.1, p.2.running))

/-- Python dict equality for the running-state comprehensions: same key
set, same value at every key. -/
def dictEq (a b : List (String × Bool)) : Bool :=
  a.all (fun p => lookupKV b p.1 == some p.2) &&
    b.all (fun p => lookupKV a p.1 == some p.2)

/-- The payload built when `service.start` raises `e` for service `s`. -/
def startFailPayload (s : ServiceSpec) (e : String) : Payload :=
  ⟨"MONITOR", "FAILURE", some (s.name ++ ": service failed to start: " ++ e),
    some s.name⟩

/-- Result of the per-service loop of `monitor`: normal completion with the
final node status, payload and action trace, or an uncaught exception. -/
inductive LoopResult where
  | ok (st : List (String × Obs)) (pl : Payload) (acts : List Action)
  | ex (e : String) (acts : List Action)
deriving DecidableEq

/-- The per-service loop of `monitor`
(`for srv in self.cl_services.values(): ...`), threading the node status
dict, the payload, the action trace and the clock index.  The source
computes `final_state`/`error` in locals and assigns the observation once
at the bottom of the loop body; here each branch performs that assignment
directly (same assignments, unrolled per branch). -/
def monitorLoop (env : Env) :
    List ServiceSpec → List (String × Obs) → Payload → List Action → Nat →
      LoopResult
  | [], st, pl, acts, _ => .ok st pl acts
  | srv :: rest, st, pl, acts, i =>
    if srv.monitor_enable = false then monitorLoop env rest st pl acts i
    else
      match env.query srv.name with
      | .error e => .ex e (acts ++ [Action.query srv.name])
      | .ok info =>
        if srv.service_enable then
          if info.state ≠ "RUNNING" then
            match env.start srv.name with
            | .ok _ =>
              monitorLoop env rest
                (setKV st srv.name ⟨true, env.clock i, none⟩) pl
                (acts ++ [Action.query srv.name, Action.start srv.name] ++
                  (if info.enable = false then [Action.update info.id true]
                   else []))
                (i + 1)
            | .error e =>
              monitorLoop env rest
                (setKV st srv.name ⟨false, env.clock i, some e⟩)
                (startFailPayload srv e)
                (acts ++ [Action.query srv.name, Action.start srv.name] ++
                  (if info.enable = false then [Action.update info.id true]
                   else []))
                (i + 1)
          else
            monitorLoop env rest
              (setKV st srv.name ⟨true, env.clock i, none⟩) pl
              (acts ++ [Action.query srv.name] ++
                (if info.enable = false then [Action.update info.id true]
                 else []))
              (i + 1)
        else
          monitorLoop env rest
            (setKV st srv.name ⟨false, env.clock i, none⟩) pl
            (acts ++ [Action.query srv.name] ++
              (if info.enable = true then [Action.update info.id false]
               else []) ++
              (if info.state = "RUNNING" then [Action.stop srv.name]
               else []))
            (i + 1)

/-- Observable outcome of one `monitor` invocation. -/
structure MonitorOutcome where
  /-- Message of the uncaught exception, if `monitor` raised. -/
  raised : Option String
  /-- Payloads passed to `ctdb.event.process`, in order. -/
  events : List Payload
  /-- Content written to `.clustered_services.{pnn}`, when the write ran. -/
  written : Option (List (String × Obs))
  /-- Control-plane service actions issued by the loop. -/
  actions : List Action
  /-- The tick's final payload dict, when the tick reached the
  post-loop comparison. -/
  result : Option Payload
deriving DecidableEq

/-- The tail of `monitor` after the per-service loop: the running-state
comparison and conditional `ctdb.event.process` call, then either the
`ctdb_shared_volume` failure path (emit + raise, no write) or the locked
write of the per-node status file. -/
def monitorFinish (initSt st : List (String × Obs)) (pl : Payload)
    (acts : List Action) : MonitorOutcome :=
  let initial := runningMap initSt
  let final := runningMap st
  let changeEvents :=
    if initial ≠ [] ∧ dictEq initial final = false then [pl] else []
  if pl.status = "FAILURE" ∧ pl.service = some "ctdb_shared_volume" then
    ⟨some (pl.reason.getD ""), changeEvents ++ [pl], none, acts, some pl⟩
  else
    ⟨none, changeEvents, some st, acts, some pl⟩

/-- `load_service_file` as `monitor` sees it: the resulting
`cl_services` and `node_status`, and whether it raised the ENOTCONN
`RuntimeError`.  On every failure branch the source falls back to
`deepcopy(CTDB_SERVICE_DEFAULTS)` and leaves `node_status` at its initial
`{}`. -/
def loadServiceFile (env : Env) :
    List ServiceSpec × List (String × Obs) × Bool :=
  match env.load with
  | .ok specs prior => (specs, prior, false)
  | .notFound => (CTDB_SERVICE_DEFAULTS, [], false)
  | .notConn => (CTDB_SERVICE_DEFAULTS, [], true)
  | .otherErr => (CTDB_SERVICE_DEFAULTS, [], false)

/-- `CtdbEvent.monitor`. -/
def monitor (env : Env) : MonitorOutcome :=
  if env.init_ok = false then
    -- init_client failed: debug log and return
    ⟨none, [], none, [], none⟩
  else
    match env.shared_check with
    | some emsg =>
      -- check_ctdb_shared_volume raised: payload becomes the
      -- ctdb_shared_volume FAILURE and the load/loop block is skipped;
      -- init_node_status and node_status are still their initial {}
      monitorFinish [] []
        ⟨"MONITOR", "FAILURE", some emsg, some "ctdb_shared_volume"⟩ []
    | none =>
      match loadServiceFile env with
      | (specs, prior, raisedNotConn) =>
        let pl0 : Payload :=
          if raisedNotConn then
            ⟨"MONITOR", "FAILURE", some enotconnMsg, some "ctdb_shared_volume"⟩
          else ⟨"MONITOR", "SUCCESS", none, none⟩
        -- init_node_status = deepcopy(node_status); then the loop runs
        -- (even after the caught RuntimeError, over the defaults)
        match monitorLoop env specs prior pl0 [] 0 with
        | .ok st pl acts => monitorFinish prior st pl acts
        | .ex e acts => ⟨some e, [], none, acts, none⟩

/-- Whether an `Except` is a normal return. -/
def isOkE {ε α : Type} : Except ε α → Bool
  | .ok _ => true
  | .error _ => false

/-- Whether an `Except` is a raised exception. -/
def isErrE {ε α : Type} : Except ε α → Bool
  | .ok _ => false
  | .error _ => true

/-- Every monitored spec's `service.query` call returns normally this tick
(otherwise the loop aborts with an uncaught exception). -/
def queriesOk (env : Env) (specs : List ServiceSpec) : Prop :=
  ∀ s ∈ specs, s.monitor_enable = true → isOkE (env.query s.name) = true

/-- The `running` value the loop records for a monitored spec whose query
returned normally. -/
def obsRun (env : Env) (s : ServiceSpec) : Bool :=
  match env.query s.name with
  | .error _ => false
  | .ok info =>
    if s.service_enable then
      if info.state ≠ "RUNNING" then isOkE (env.start s.name) else true
    else false

/-- The `error` value the loop records for a monitored spec whose query
returned normally. -/
def obsErr (env : Env) (s : ServiceSpec) : Option String :=
  match env.query s.name with
  | .error _ => none
  | .ok info =>
    if s.service_enable then
      if info.state ≠ "RUNNING" then
        match env.start s.name with
        | .ok _ => none
        | .error e => some e
      else none
    else none

/-- Message of the exception raised by `service.start` for `s` (empty when
the start succeeded). -/
def startErr (env : Env) (s : ServiceSpec) : String :=
  match env.start s.name with
  | .ok _ => ""
  | .error e => e

/-- Whether this tick attempts to start `s` and the attempt raises. -/
def startFails (env : Env) (s : ServiceSpec) : Bool :=
  s.monitor_enable && s.service_enable &&
    (match env.query s.name with
     | .error _ => false
     | .ok info =>
       if info.state ≠ "RUNNING" then isErrE (env.start s.name) else false)

/-- Control-plane calls one loop iteration issues for spec `s`, assuming
its query returns normally. -/
def actionsOf (env : Env) (s : ServiceSpec) : List Action :=
  if s.monitor_enable = false then []
  else
    match env.query s.name with
    | .error _ => [Action.query s.name]
    | .ok info =>
      if s.service_enable then
        (if info.state ≠ "RUNNING" then
           [Action.query s.name, Action.start s.name]
         else [Action.query s.name]) ++
          (if info.enable = false then [Action.update info.id true] else [])
      else
        [Action.query s.name] ++
          (if info.enable = true then [Action.update info.id false]
           else []) ++
          (if info.state = "RUNNING" then [Action.stop s.name] else [])

/-- Pure summary of the node-status dict produced by the loop. -/
def loopSt (env : Env) :
    List ServiceSpec → List (String × Obs) → Nat → List (String × Obs)
  | [], st, _ => st
  | s :: rest, st, i =>
    if s.monitor_enable = false then loopSt env rest st i
    else
      loopSt env rest
        (setKV st s.name ⟨obsRun env s, env.clock i, obsErr env s⟩) (i + 1)

/-- Pure summary of the payload produced by the loop: each failing start
overwrites the payload, so the last failure wins. -/
def loopPl (env : Env) : List ServiceSpec → Payload → Payload
  | [], pl => pl
  | s :: rest, pl =>
    if startFails env s then
      loopPl env rest (startFailPayload s (startErr env s))
    else loopPl env rest pl

/-- Pure summary of the action trace produced by the loop. -/
def loopActs (env : Env) : List ServiceSpec → List Action
  | [] => []
  | s :: rest => actionsOf env s ++ loopActs env rest

/-- Observations with the `last_check` timestamp erased. -/
def dropTs (m : List (String × Obs)) : List (String × Bool × Option String) :=
  m.map (fun p => (p.1, p.2.running, p.2.error))

/-- Comparison as the spec words it ("restricted to the keys present in
both"): the maps agree at every common key.  Stated from the spec, for
comparison with the source's full-dict `dictEq`. -/
def dictEqOnCommon (a b : List (String × Bool)) : Bool :=
  a.all (fun p =>
    match lookupKV b p.1 with
    | none => true
    | some v => v == p.2) &&
  b.all (fun p =>
    match lookupKV a p.1 with
    | none => true
    | some v => v == p.2)

/-- Observable outcome of one `startup` invocation. -/
structure StartupOutcome where
  raised : Option String
  events : List Payload
  /-- Arguments of the `service.restart` calls, in order. -/
  restarts : List String
deriving DecidableEq

/-- `CtdbEvent.startup`. -/
def startup (env : Env) : StartupOutcome :=
  if env.init_ok = false then ⟨none, [], []⟩
  else
    match env.shared_check with
    | some emsg =>
      ⟨some emsg, [⟨"STARTUP", "FAILURE", some emsg, none⟩], []⟩
    | none =>
      if env.service_file_exists = false then ⟨none, [], []⟩
      else
        match loadServiceFile env with
        | (specs, _, raisedNotConn) =>
          if raisedNotConn then ⟨some enotconnMsg, [], []⟩
          else
            ⟨none, [⟨"STARTUP", "SUCCESS", none, none⟩],
              (specs.filter
                (fun s => s.monitor_enable && s.service_enable)).map
                (fun s => s.name)⟩

/-- The initial MONITOR payload (`{'event': 'MONITOR', 'status': 'SUCCESS'}`). -/
def plSuccess : Payload := ⟨"MONITOR", "SUCCESS", none, none⟩

/-- A query oracle reporting every service running and enabled. -/
def qRunning : String → Except String ServiceInfo := fun _ => .ok ⟨"RUNNING", true, 0⟩

/-- A start oracle that always succeeds. -/
def sOk : String → Except String Unit := fun _ => .ok ()

def envC1 : Env :=
  ⟨true, some "ctdb shared volume not mounted", true, .ok [] [], qRunning, sOk,
    fun _ => true, fun _ => 0⟩

def envW1 : Env :=
  ⟨true, none, true, .notConn, qRunning, sOk, fun _ => true, fun _ => 0⟩

def envC2 : Env :=
  ⟨true, none, true, .ok [⟨"b", true, true⟩] [("a", ⟨true, 0, none⟩)],
    qRunning, sOk, fun _ => true, fun _ => 0⟩

def envW2 : Env :=
  ⟨true, none, true, .ok [⟨"svcA", true, true⟩] [("svcA", ⟨true, 0, none⟩)],
    fun _ => .ok ⟨"STOPPED", true, 0⟩, fun _ => .error "down",
    fun _ => true, fun _ => 0⟩

def envW3 : Env :=
  ⟨true, none, true, .ok [⟨"svcA", true, true⟩] [],
    fun _ => .ok ⟨"STOPPED", true, 0⟩, fun _ => .error "port in use",
    fun _ => true, fun _ => 0⟩

def envW3b : Env :=
  ⟨true, none, true, .ok [⟨"s1", true, true⟩, ⟨"s2", true, true⟩] [],
    fun _ => .ok ⟨"STOPPED", true, 0⟩, fun n => .error (n ++ " down"),
    fun _ => true, fun _ => 0⟩

def envW4 : Env :=
  ⟨true, none, true, .ok [⟨"svcB", false, true⟩] [],
    fun _ => .ok ⟨"RUNNING", true, 7⟩, sOk, fun _ => true, fun _ => 0⟩

def envC5a : Env :=
  ⟨true, none, true, .ok [⟨"a", true, true⟩] [("a", ⟨false, 0, none⟩)],
    qRunning, sOk, fun _ => true, fun _ => 0⟩

def envC5b : Env :=
  ⟨true, none, true, .ok [⟨"a", true, true⟩] [("a", ⟨true, 0, none⟩)],
    qRunning, sOk, fun _ => true, fun _ => 1⟩

def envW5a : Env :=
  ⟨true, none, true, .ok [⟨"a", true, true⟩] [], qRunning, sOk,
    fun _ => true, fun _ => 0⟩

def envW5b : Env :=
  ⟨true, none, true, .ok [⟨"a", true, true⟩] [("a", ⟨true, 0, none⟩)],
    qRunning, sOk, fun _ => true, fun _ => 1⟩

def envC6 : Env :=
  ⟨true, none, false, .ok [] [], qRunning, sOk, fun _ => true, fun _ => 0⟩

def envW6a : Env :=
  ⟨true, some "ctdb shared volume not mounted", true, .ok [] [], qRunning,
    sOk, fun _ => true, fun _ => 0⟩

def envW6b : Env :=
  ⟨true, none, true,
    .ok [⟨"x", true, true⟩, ⟨"y", false, true⟩, ⟨"z", true, false⟩] [],
    qRunning, sOk, fun _ => true, fun _ => 0⟩

def envW7 : Env :=
  ⟨true, none, true,
    .ok [⟨"m", true, true⟩, ⟨"u", true, false⟩] [("u", ⟨true, 5, none⟩)],
    qRunning, sOk, fun _ => true, fun _ => 0⟩

def envC8 : Env :=
  ⟨true, none, true, .ok [⟨"a", true, true⟩] [],
    fun _ => .error "connection refused", sOk, fun _ => true, fun _ => 0⟩

def envW8a : Env :=
  ⟨false, none, true, .ok [] [], qRunning, sOk, fun _ => true, fun _ => 0⟩

def envW8b : Env :=
  ⟨true, none, true, .ok [⟨"c", true, true⟩] [("c", ⟨true, 0, none⟩)],
    fun _ => .error "transport closed", sOk, fun _ => true, fun _ => 0⟩

def envW9 : Env :=
  ⟨true, none, true, .ok [⟨"svcA", true, true⟩] [],
    fun _ => .ok ⟨"STOPPED", false, 2⟩, sOk, fun _ => true, fun _ => 5⟩

def envW10 : Env :=
  ⟨true, none, true, .ok [⟨"a", true, true⟩] [],
    fun _ => .ok ⟨"STOPPED", true, 1⟩, fun _ => .error "boom",
    fun _ => true, fun _ => 0⟩

/-! ### Association-list lemmas -/

theorem lookupKV_setKV_self {β : Type} (m : List (String × β)) (k : String)
    (v : β) : lookupKV (setKV m k v) k = some v := by
  induction m with
  | nil => simp [setKV, lookupKV]
  | cons p rest ih =>
    obtain ⟨k', v'⟩ := p
    by_cases h : k' = k
    · simp [setKV, h, lookupKV]
    · simp [setKV, h, lookupKV, ih]

theorem lookupKV_setKV_ne {β : Type} (m : List (String × β)) (k k' : String)
    (v : β) (h : k' ≠ k) : lookupKV (setKV m k v) k' = lookupKV m k' := by
  have hk : ¬k = k' := fun hh => h hh.symm
  induction m with
  | nil => simp [setKV, lookupKV, hk]
  | cons p rest ih =>
    obtain ⟨k₀, v₀⟩ := p
    by_cases h₀ : k₀ = k
    · subst h₀
      simp [setKV, lookupKV, hk]
    · simp [setKV, h₀, lookupKV, ih]

theorem mem_keys_setKV {β : Type} (m : List (String × β)) (k a : String)
    (v : β) :
    a ∈ (setKV m k v).map Prod.fst ↔ a ∈ m.map Prod.fst ∨ a = k := by
  induction m with
  | nil => simp [setKV]
  | cons p rest ih =>
    obtain ⟨k₀, v₀⟩ := p
    by_cases h₀ : k₀ = k
    · subst h₀
      simp [setKV]
      tauto
    · simp [setKV, h₀, ih]
      tauto

theorem nodup_keys_setKV {β : Type} (m : List (String × β)) (k : String)
    (v : β) (h : (m.map Prod.fst).Nodup) :
    ((setKV m k v).map Prod.fst).Nodup := by
  induction m with
  | nil => simp [setKV]
  | cons p rest ih =>
    obtain ⟨k₀, v₀⟩ := p
    simp only [List.map_cons, List.nodup_cons] at h
    by_cases h₀ : k₀ = k
    · subst h₀
      simpa [setKV] using h
    · simp only [setKV, h₀, if_false, List.map_cons, List.nodup_cons]
      refine ⟨?_, ih h.2⟩
      rw [mem_keys_setKV]
      rintro (hmem | rfl)
      · exact h.1 hmem
      · exact h₀ rfl

theorem lookupKV_of_mem_nodup {β : Type} (m : List (String × β))
    (k : String) (v : β) (hn : (m.map Prod.fst).Nodup) (hm : (k, v) ∈ m) :
    lookupKV m k = some v := by
  induction m with
  | nil => cases hm
  | cons p rest ih =>
    obtain ⟨k₀, v₀⟩ := p
    simp only [List.map_cons, List.nodup_cons] at hn
    rcases List.mem_cons.mp hm with h | h
    · cases h
      simp [lookupKV]
    · have hk : k₀ ≠ k := by
        rintro rfl
        exact hn.1 (List.mem_map.mpr ⟨(k₀, v), h, rfl⟩)
      simp [lookupKV, hk, ih hn.2 h]

theorem dictEq_refl (a : List (String × Bool))
    (hn : (a.map Prod.fst).Nodup) : dictEq a a = true := by
  simp only [dictEq, Bool.and_eq_true, List.all_eq_true]
  constructor <;>
    · intro p hp
      simpa using lookupKV_of_mem_nodup a p.1 p.2 hn hp

theorem keys_runningMap (m : List (String × Obs)) :
    (runningMap m).map Prod.fst = m.map Prod.fst := by
  simp [runningMap, List.map_map, Function.comp]

theorem runningMap_eq_nil (m : List (String × Obs)) :
    runningMap m = [] ↔ m = [] := by
  simp [runningMap]

theorem dropTs_setKV (m : List (String × Obs)) (k : String) (o v : Obs)
    (hl : lookupKV m k = some o) (hr : o.running = v.running)
    (he : o.error = v.error) : dropTs (setKV m k v) = dropTs m := by
  induction m with
  | nil => simp [lookupKV] at hl
  | cons p rest ih =>
    obtain ⟨k₀, v₀⟩ := p
    by_cases h₀ : k₀ = k
    · subst h₀
      simp [lookupKV] at hl
      subst hl
      simp [setKV, dropTs, hr.symm, he.symm]
    · simp [lookupKV, h₀] at hl
      have h2 := ih hl
      simp only [dropTs] at h2 ⊢
      simp [setKV, h₀, h2]

theorem runningMap_eq_dropTs (m : List (String × Obs)) :
    runningMap m = (dropTs m).map (fun p => (p.1, p.2.1)) := by
  simp [runningMap, dropTs, List.map_map, Function.comp]

theorem runningMap_eq_of_dropTs (a b : List (String × Obs))
    (h : dropTs a = dropTs b) : runningMap a = runningMap b := by
  rw [runningMap_eq_dropTs, runningMap_eq_dropTs, h]

/-! ### Loop characterization lemmas -/

theorem loopSt_lookup_notTouched (env : Env) (n : String) :
    ∀ specs : List ServiceSpec,
      (∀ s ∈ specs, s.monitor_enable = true → s.name ≠ n) →
      ∀ (st : List (String × Obs)) (i : Nat),
        lookupKV (loopSt env specs st i) n = lookupKV st n := by
  intro specs
  induction specs with
  | nil => intro _ st i; simp [loopSt]
  | cons s rest ih =>
    intro h st i
    have htail := fun t ht => h t (List.mem_cons_of_mem _ ht)
    cases hm : s.monitor_enable with
    | false =>
      simp only [loopSt, hm, if_pos rfl]
      exact ih htail st i
    | true =>
      have hne : s.name ≠ n := h s (List.mem_cons_self _ _) hm
      simp only [loopSt, hm, Bool.true_eq_false, if_false]
      rw [ih htail]
      exact lookupKV_setKV_ne st s.name n _ (fun hh => hne hh.symm)

theorem loopSt_lookup_mem (env : Env) (s : ServiceSpec)
    (hm : s.monitor_enable = true) :
    ∀ specs : List ServiceSpec,
      (specs.map (fun t => t.name)).Nodup → s ∈ specs →
      ∀ (st : List (String × Obs)) (i : Nat), ∃ ts,
        lookupKV (loopSt env specs st i) s.name =
          some ⟨obsRun env s, ts, obsErr env s⟩ := by
  intro specs
  induction specs with
  | nil => intro _ hs; cases hs
  | cons t rest ih =>
    intro hnn hs st i
    simp only [List.map_cons, List.nodup_cons] at hnn
    rcases List.mem_cons.mp hs with rfl | hs'
    · simp only [loopSt, hm, Bool.true_eq_false, if_false]
      refine ⟨env.clock i, ?_⟩
      rw [loopSt_lookup_notTouched env s.name rest ?_]
      · exact lookupKV_setKV_self st s.name _
      · intro u hu _ hueq
        exact hnn.1 (hueq ▸ List.mem_map.mpr ⟨u, hu, rfl⟩)
    · cases hmt : t.monitor_enable with
      | false =>
        simp only [loopSt, hmt, if_pos rfl]
        exact ih hnn.2 hs' st i
      | true =>
        simp only [loopSt, hmt, Bool.true_eq_false, if_false]
        exact ih hnn.2 hs' _ (i + 1)

theorem loopSt_keys_nodup (env : Env) :
    ∀ specs : List ServiceSpec, ∀ (st : List (String × Obs)) (i : Nat),
      (st.map Prod.fst).Nodup → ((loopSt env specs st i).map Prod.fst).Nodup := by
  intro specs
  induction specs with
  | nil => intro st i h; simpa [loopSt] using h
  | cons s rest ih =>
    intro st i h
    cases hm : s.monitor_enable with
    | false =>
      simp only [loopSt, hm, if_pos rfl]
      exact ih st i h
    | true =>
      simp only [loopSt, hm, Bool.true_eq_false, if_false]
      exact ih _ (i + 1) (nodup_keys_setKV st s.name _ h)

theorem loopSt_dropTs_frozen (env : Env) :
    ∀ specs : List ServiceSpec,
      (specs.map (fun t => t.name)).Nodup →
      ∀ (st : List (String × Obs)) (i : Nat),
      (∀ s ∈ specs, s.monitor_enable = true → ∃ ts,
        lookupKV st s.name = some ⟨obsRun env s, ts, obsErr env s⟩) →
      dropTs (loopSt env specs st i) = dropTs st := by
  intro specs
  induction specs with
  | nil => intro _ st i _; simp [loopSt]
  | cons s rest ih =>
    intro hnn st i h
    simp only [List.map_cons, List.nodup_cons] at hnn
    cases hm : s.monitor_enable with
    | false =>
      simp only [loopSt, hm, if_pos rfl]
      exact ih hnn.2 st i (fun t ht => h t (List.mem_cons_of_mem _ ht))
    | true =>
      simp only [loopSt, hm, Bool.true_eq_false, if_false]
      obtain ⟨ts, hl⟩ := h s (List.mem_cons_self _ _) hm
      have hset : dropTs (setKV st s.name
          ⟨obsRun env s, env.clock i, obsErr env s⟩) = dropTs st :=
        dropTs_setKV st s.name _ _ hl rfl rfl
      rw [ih hnn.2 _ (i + 1) ?_, hset]
      intro t ht hmt
      obtain ⟨ts', hl'⟩ := h t (List.mem_cons_of_mem _ ht) hmt
      refine ⟨ts', ?_⟩
      rw [lookupKV_setKV_ne st s.name t.name _ ?_, hl']
      intro hh
      exact hnn.1 (hh ▸ List.mem_map.mpr ⟨t, ht, rfl⟩)

theorem loopPl_eq_foldl (env : Env) :
    ∀ (specs : List ServiceSpec) (pl : Payload),
      loopPl env specs pl =
        (specs.filter fun s => startFails env s).foldl
          (fun _ s => startFailPayload s (startErr env s)) pl := by
  intro specs
  induction specs with
  | nil => intro pl; simp [loopPl]
  | cons s rest ih =>
    intro pl
    by_cases hf : startFails env s = true
    · simp [loopPl, hf, List.filter_cons, ih]
    · simp [loopPl, hf, List.filter_cons, ih]

theorem getLast?_mem' {α : Type} :
    ∀ (l : List α) (a : α), l.getLast? = some a → a ∈ l := by
  intro l
  induction l with
  | nil => intro a h; simp [List.getLast?] at h
  | cons x rest ih =>
    intro a h
    cases rest with
    | nil =>
      simp [List.getLast?] at h
      simp [h]
    | cons y t =>
      rw [List.getLast?_cons_cons] at h
      exact List.mem_cons_of_mem _ (ih a h)

theorem foldl_const_last {α β : Type} (f : α → β) :
    ∀ (l : List α) (init : β),
      l.foldl (fun _ s => f s) init =
        (match l.getLast? with | none => init | some s => f s) := by
  intro l
  induction l with
  | nil => intro init; simp [List.getLast?]
  | cons a rest ih =>
    intro init
    cases rest with
    | nil => simp [List.getLast?]
    | cons b t =>
      rw [List.foldl_cons, ih (f a), List.getLast?_cons_cons]
      cases hl : (b :: t).getLast? with
      | none => simp [List.getLast?_eq_none_iff] at hl
      | some s => rfl

theorem loopPl_last_none (env : Env) (specs : List ServiceSpec) (pl : Payload)
    (hl : (specs.filter fun s => startFails env s).getLast? = none) :
    loopPl env specs pl = pl := by
  rw [loopPl_eq_foldl, foldl_const_last, hl]

theorem loopPl_last_some (env : Env) (specs : List ServiceSpec) (pl : Payload)
    (s : ServiceSpec)
    (hl : (specs.filter fun s => startFails env s).getLast? = some s) :
    loopPl env specs pl = startFailPayload s (startErr env s) := by
  rw [loopPl_eq_foldl, foldl_const_last, hl]

theorem loopPl_cases (env : Env) (specs : List ServiceSpec) (pl : Payload) :
    loopPl env specs pl = pl ∨
      ∃ s ∈ specs, loopPl env specs pl = startFailPayload s (startErr env s) := by
  cases hl : (specs.filter fun s => startFails env s).getLast? with
  | none => exact Or.inl (loopPl_last_none env specs pl hl)
  | some s =>
    refine Or.inr ⟨s, ?_, loopPl_last_some env specs pl s hl⟩
    exact (List.mem_filter.mp (getLast?_mem' _ s hl)).1

theorem loopActs_infix (env : Env) (s : ServiceSpec) :
    ∀ specs : List ServiceSpec, s ∈ specs →
      ∃ pre post, loopActs env specs = pre ++ actionsOf env s ++ post := by
  intro specs
  induction specs with
  | nil => intro hs; cases hs
  | cons t rest ih =>
    intro hs
    rcases List.mem_cons.mp hs with rfl | hs'
    · exact ⟨[], loopActs env rest, by simp [loopActs]⟩
    · obtain ⟨pre, post, hp⟩ := ih hs'
      exact ⟨actionsOf env t ++ pre, post, by simp [loopActs, hp]⟩

/-! ### The loop agrees with its pure characterization -/

theorem monitorLoop_eq (env : Env) :
    ∀ specs : List ServiceSpec, queriesOk env specs →
      ∀ (st : List (String × Obs)) (pl : Payload) (acts : List Action)
        (i : Nat),
        monitorLoop env specs st pl acts i =
          .ok (loopSt env specs st i) (loopPl env specs pl)
            (acts ++ loopActs env specs) := by
  intro specs
  induction specs with
  | nil => intro _ st pl acts i; simp [monitorLoop, loopSt, loopPl, loopActs]
  | cons s rest ih =>
    intro h st pl acts i
    have htail : queriesOk env rest :=
      fun t ht hmt => h t (List.mem_cons_of_mem _ ht) hmt
    cases hm : s.monitor_enable with
    | false =>
      have hf : startFails env s = false := by simp [startFails, hm]
      simp [monitorLoop, hm, loopSt, loopPl, loopActs, actionsOf, hf,
        ih htail]
    | true =>
      have hq := h s (List.mem_cons_self _ _) hm
      cases hquery : env.query s.name with
      | error e => simp [isOkE, hquery] at hq
      | ok info =>
        cases hse : s.service_enable with
        | true =>
          by_cases hR : info.state = "RUNNING"
          · have hf : startFails env s = false := by
              simp [startFails, hquery, hR]
            have hrun : obsRun env s = true := by
              simp [obsRun, hquery, hR, hse]
            have herr : obsErr env s = none := by
              simp [obsErr, hquery, hR, hse]
            simp [monitorLoop, hm, hquery, hse, hR, loopSt, loopPl, loopActs,
              actionsOf, hf, hrun, herr, ih htail, List.append_assoc]
          · cases hst : env.start s.name with
            | ok u =>
              have hf : startFails env s = false := by
                simp [startFails, hquery, hR, hst, isErrE]
              have hrun : obsRun env s = true := by
                simp [obsRun, hquery, hR, hse, hst, isOkE]
              have herr : obsErr env s = none := by
                simp [obsErr, hquery, hR, hse, hst]
              simp [monitorLoop, hm, hquery, hse, hR, hst, loopSt, loopPl,
                loopActs, actionsOf, hf, hrun, herr, ih htail,
                List.append_assoc]
            | error e =>
              have hf : startFails env s = true := by
                simp [startFails, hm, hse, hquery, hR, hst, isErrE]
              have hrun : obsRun env s = false := by
                simp [obsRun, hquery, hR, hse, hst, isOkE]
              have herr : obsErr env s = some e := by
                simp [obsErr, hquery, hR, hse, hst]
              have hserr : startErr env s = e := by simp [startErr, hst]
              simp [monitorLoop, hm, hquery, hse, hR, hst, loopSt, loopPl,
                loopActs, actionsOf, hf, hrun, herr, hserr, ih htail,
                List.append_assoc]
        | false =>
          have hf : startFails env s = false := by simp [startFails, hse]
          have hrun : obsRun env s = false := by simp [obsRun, hquery, hse]
          have herr : obsErr env s = none := by simp [obsErr, hquery, hse]
          simp [monitorLoop, hm, hquery, hse, loopSt, loopPl, loopActs,
            actionsOf, hf, hrun, herr, ih htail, List.append_assoc]

theorem monitorLoop_ex (env : Env) :
    ∀ specs : List ServiceSpec,
      (∃ s ∈ specs, s.monitor_enable = true ∧
        isErrE (env.query s.name) = true) →
      ∀ (st : List (String × Obs)) (pl : Payload) (acts : List Action)
        (i : Nat),
        ∃ e acts', monitorLoop env specs st pl acts i = .ex e acts' := by
  intro specs
  induction specs with
  | nil => rintro ⟨s, hs, _⟩; cases hs
  | cons t rest ih =>
    rintro ⟨s, hs, hmon, herr⟩ st pl acts i
    rcases List.mem_cons.mp hs with rfl | hs'
    · cases hquery : env.query s.name with
      | error e =>
        exact ⟨e, acts ++ [Action.query s.name],
          by simp [monitorLoop, hmon, hquery]⟩
      | ok info => simp [isErrE, hquery] at herr
    · have hex : ∃ u ∈ rest, u.monitor_enable = true ∧
          isErrE (env.query u.name) = true := ⟨s, hs', hmon, herr⟩
      cases hmt : t.monitor_enable with
      | false =>
        simp only [monitorLoop, hmt, if_pos rfl]
        exact ih hex st pl acts i
      | true =>
        cases hquery : env.query t.name with
        | error e =>
          exact ⟨e, acts ++ [Action.query t.name],
            by simp [monitorLoop, hmt, hquery]⟩
        | ok info =>
          cases hse : t.service_enable with
          | true =>
            by_cases hR : info.state = "RUNNING"
            · simp only [monitorLoop, hmt, Bool.true_eq_false, if_false,
                hquery, hse, if_pos rfl, hR]
              simp only [ne_eq, not_true_eq_false, if_false]
              exact ih hex _ _ _ _
            · cases hst : env.start t.name with
              | ok u =>
                simp only [monitorLoop, hmt, Bool.true_eq_false, if_false,
                  hquery, hse, if_pos rfl, ne_eq, hR, not_false_eq_true,
                  if_true, hst]
                exact ih hex _ _ _ _
              | error e =>
                simp only [monitorLoop, hmt, Bool.true_eq_false, if_false,
                  hquery, hse, if_pos rfl, ne_eq, hR, not_false_eq_true,
                  if_true, hst]
                exact ih hex _ _ _ _
          | false =>
            simp only [monitorLoop, hmt, Bool.true_eq_false, if_false,
              hquery, hse]
            exact ih hex _ _ _ _

/-! ### Unfolding `monitor` on a successful load -/

theorem monitor_ok_eq (env : Env) (specs : List ServiceSpec)
    (prior : List (String × Obs)) (h1 : env.init_ok = true)
    (h2 : env.shared_check = none) (h3 : env.load = .ok specs prior)
    (h4 : queriesOk env specs) :
    monitor env = monitorFinish prior (loopSt env specs prior 0)
      (loopPl env specs plSuccess) (loopActs env specs) := by
  have hloop := monitorLoop_eq env specs h4 prior plSuccess [] 0
  simp [monitor, h1, h2, loadServiceFile, h3, plSuccess] at hloop ⊢
  rw [hloop]

theorem monitor_ok_written (env : Env) (specs : List ServiceSpec)
    (prior : List (String × Obs)) (h1 : env.init_ok = true)
    (h2 : env.shared_check = none) (h3 : env.load = .ok specs prior)
    (h4 : queriesOk env specs)
    (hname : ∀ s ∈ specs, s.name ≠ "ctdb_shared_volume") :
    monitor env = ⟨none,
      (if runningMap prior ≠ [] ∧
          dictEq (runningMap prior)
            (runningMap (loopSt env specs prior 0)) = false
       then [loopPl env specs plSuccess] else []),
      some (loopSt env specs prior 0), loopActs env specs,
      some (loopPl env specs plSuccess)⟩ := by
  rw [monitor_ok_eq env specs prior h1 h2 h3 h4]
  have hcond : ¬((loopPl env specs plSuccess).status = "FAILURE" ∧
      (loopPl env specs plSuccess).service = some "ctdb_shared_volume") := by
    rcases loopPl_cases env specs plSuccess with hc | ⟨s, hs, hc⟩
    · rw [hc]
      rintro ⟨hst, _⟩
      exact absurd hst (by decide)
    · rw [hc]
      rintro ⟨_, hsv⟩
      simp [startFailPayload] at hsv
      exact hname s hs hsv
  simp [monitorFinish, hcond]

theorem obsErr_run_false (env : Env) (s : ServiceSpec)
    (h : obsErr env s ≠ none) : obsRun env s = false := by
  cases hq : env.query s.name with
  | error e => simp [obsErr, hq] at h
  | ok info =>
    cases hse : s.service_enable with
    | false => simp [obsErr, hq, hse] at h
    | true =>
      by_cases hR : info.state = "RUNNING"
      · simp [obsErr, hq, hse, hR] at h
      · cases hst : env.start s.name with
        | ok u => simp [obsErr, hq, hse, hR, hst] at h
        | error e => simp [obsRun, hq, hse, hR, hst, isOkE]

theorem startFails_elim (env : Env) (t : ServiceSpec) (e : String)
    (hf : startFails env t = true) (he : env.start t.name = .error e) :
    t.monitor_enable = true ∧ obsRun env t = false ∧
      obsErr env t = some e := by
  have hparts := hf
  simp only [startFails, Bool.and_eq_true] at hparts
  obtain ⟨⟨hm, hse⟩, hrest⟩ := hparts
  cases hq : env.query t.name with
  | error e' => simp [hq] at hrest
  | ok info =>
    by_cases hR : info.state = "RUNNING"
    · simp [hq, hR] at hrest
    · refine ⟨hm, ?_, ?_⟩
      · simp [obsRun, hq, hse, hR, he, isOkE]
      · simp [obsErr, hq, hse, hR, he]

/-! ### Claim C1 -/

/-- Claim C1, counterexample to the stated sentinel name: on a MONITOR tick
whose shared-volume check fails, the tick does abort with a FAILURE result,
but the offending pseudo-service in the payload is "ctdb_shared_volume",
not "shared_volume" as the claim states. -/
theorem C1_cex :
    (monitor envC1).result = some ⟨"MONITOR", "FAILURE",
      some "ctdb shared volume not mounted", some "ctdb_shared_volume"⟩ ∧
    ∀ p ∈ (monitor envC1).events, p.service ≠ some "shared_volume" := by
  decide

/-- Claim C1 (amended): for every MONITOR tick in which the shared-volume
check fails or loading the cluster service file raises the
transport-level not-connected error, reconciliation aborts with a FAILURE
result whose offending pseudo-service is "ctdb_shared_volume", no service
is queried, started, stopped or updated, and the per-node observation file
is not written. -/
theorem C1_thm (env : Env) (msg : String) (h1 : env.init_ok = true)
    (h2 : env.shared_check = some msg ∨
      (env.shared_check = none ∧ env.load = .notConn)) :
    ∃ r, monitor env = ⟨some r,
      [⟨"MONITOR", "FAILURE", some r, some "ctdb_shared_volume"⟩], none, [],
      some ⟨"MONITOR", "FAILURE", some r, some "ctdb_shared_volume"⟩⟩ := by
  rcases h2 with hc | ⟨hc, hl⟩
  · refine ⟨msg, ?_⟩
    simp [monitor, h1, hc, monitorFinish, runningMap, dictEq]
  · refine ⟨enotconnMsg, ?_⟩
    simp [monitor, h1, hc, loadServiceFile, hl, CTDB_SERVICE_DEFAULTS,
      monitorLoop, monitorFinish, runningMap, dictEq]

theorem C1_witness :
    ∃ r, monitor envW1 = ⟨some r,
      [⟨"MONITOR", "FAILURE", some r, some "ctdb_shared_volume"⟩], none, [],
      some ⟨"MONITOR", "FAILURE", some r, some "ctdb_shared_volume"⟩⟩ :=
  C1_thm envW1 "unused" rfl (Or.inr ⟨rfl, rfl⟩)

/-! ### Claim C6 -/

/-- Claim C6, counterexample: with the shared volume mounted but the
cluster service file absent, `startup` returns without restarting anything
and without reporting SUCCESS, contradicting the claim's "otherwise ... a
SUCCESS status is reported". -/
theorem C6_cex :
    (startup envC6).events = [] ∧ (startup envC6).restarts = [] ∧
      (startup envC6).raised = none := by
  decide

/-- Claim C6 (amended): on STARTUP, if the shared-volume check fails a
FAILURE event is reported and the error propagates; otherwise, if the
cluster service file exists and loads, every enabled-and-monitored service
is restarted unconditionally and SUCCESS is reported (when the file does
not exist the hook returns without restarting or reporting). -/
theorem C6_thm (env : Env) (msg : String) (specs : List ServiceSpec)
    (prior : List (String × Obs)) (h1 : env.init_ok = true) :
    (env.shared_check = some msg →
      startup env =
        ⟨some msg, [⟨"STARTUP", "FAILURE", some msg, none⟩], []⟩) ∧
    (env.shared_check = none → env.service_file_exists = true →
      env.load = .ok specs prior →
      startup env = ⟨none, [⟨"STARTUP", "SUCCESS", none, none⟩],
        (specs.filter fun s => s.monitor_enable && s.service_enable).map
          (fun s => s.name)⟩) := by
  constructor
  · intro hc
    simp [startup, h1, hc]
  · intro hc hf hl
    simp [startup, h1, hc, hf, loadServiceFile, hl]

theorem C6_witness :
    startup envW6a = ⟨some "ctdb shared volume not mounted",
      [⟨"STARTUP", "FAILURE", some "ctdb shared volume not mounted", none⟩],
      []⟩ ∧
    startup envW6b = ⟨none, [⟨"STARTUP", "SUCCESS", none, none⟩], ["x"]⟩ := by
  constructor
  · exact (C6_thm envW6a "ctdb shared volume not mounted" [] [] rfl).1 rfl
  · have h := (C6_thm envW6b "unused"
      [⟨"x", true, true⟩, ⟨"y", false, true⟩, ⟨"z", true, false⟩] [] rfl).2
      rfl rfl rfl
    simpa using h

/-! ### Claim C8 -/

/-- Claim C8, counterexample: when the control-plane client becomes
unreachable at the `service.query` call inside the loop, the MONITOR tick
does not degrade gracefully: the exception propagates to the caller
(contradicting "no error is raised to the caller"). -/
theorem C8_cex :
    (monitor envC8).raised = some "connection refused" ∧
    (monitor envC8).written = none := by
  decide

/-- Claim C8 (amended): the graceful skip (no error raised, no state
mutated, only a local log) happens exactly when `init_client` fails at
tick start; once the tick is under way, a failing `service.query` call
propagates out of `monitor` as an uncaught error, with no file write and
no event emitted. -/
theorem C8_thm (env : Env) (specs : List ServiceSpec)
    (prior : List (String × Obs)) :
    (env.init_ok = false → monitor env = ⟨none, [], none, [], none⟩) ∧
    (env.init_ok = true → env.shared_check = none →
      env.load = .ok specs prior →
      (∃ s ∈ specs, s.monitor_enable = true ∧
        isErrE (env.query s.name) = true) →
      (monitor env).raised.isSome = true ∧ (monitor env).written = none ∧
        (monitor env).events = []) := by
  constructor
  · intro h
    simp [monitor, h]
  · intro h1 h2 h3 hex
    obtain ⟨e, acts, hrw⟩ := monitorLoop_ex env specs hex prior plSuccess [] 0
    have hmon : monitor env = ⟨some e, [], none, acts, none⟩ := by
      simp [monitor, h1, h2, loadServiceFile, h3, plSuccess] at hrw ⊢
      rw [hrw]
    simp [hmon]

theorem C8_witness :
    monitor envW8a = ⟨none, [], none, [], none⟩ ∧
    ((monitor envW8b).raised.isSome = true ∧
      (monitor envW8b).written = none ∧ (monitor envW8b).events = []) :=
  ⟨(C8_thm envW8a [] []).1 rfl,
    (C8_thm envW8b [⟨"c", true, true⟩] [("c", ⟨true, 0, none⟩)]).2 rfl rfl rfl
      ⟨⟨"c", true, true⟩, by decide, rfl, rfl⟩⟩

/-! ### Claim C9 -/

/-- Claim C9 (confirmed): with ServiceSpec svcA enabled and monitored,
actual state STOPPED and a successful start, the tick records
observation running = true with no error for svcA (timestamped with the
tick clock) and the tick result stays SUCCESS. -/
theorem C9_thm (env : Env) (prior : List (String × Obs)) (eb : Bool)
    (sid : Nat) (h1 : env.init_ok = true) (h2 : env.shared_check = none)
    (h3 : env.load = .ok [⟨"svcA", true, true⟩] prior)
    (h4 : env.query "svcA" = .ok ⟨"STOPPED", eb, sid⟩)
    (h5 : env.start "svcA" = .ok ()) :
    (monitor env).result = some plSuccess ∧
    ∃ st, (monitor env).written = some st ∧
      lookupKV st "svcA" = some ⟨true, env.clock 0, none⟩ := by
  have hq : queriesOk env [⟨"svcA", true, true⟩] := by
    intro s hs _
    rcases List.mem_singleton.mp hs with rfl
    simp [h4, isOkE]
  have hname : ∀ s ∈ [(⟨"svcA", true, true⟩ : ServiceSpec)],
      s.name ≠ "ctdb_shared_volume" := by
    intro s hs
    rcases List.mem_singleton.mp hs with rfl
    decide
  have hSR : ("STOPPED" : String) ≠ "RUNNING" := by decide
  rw [monitor_ok_written env _ prior h1 h2 h3 hq hname]
  constructor
  · have hf : startFails env ⟨"svcA", true, true⟩ = false := by
      simp [startFails, h4, h5, isErrE]
    simp [loopPl, hf]
  · refine ⟨loopSt env [⟨"svcA", true, true⟩] prior 0, rfl, ?_⟩
    have hrun : obsRun env ⟨"svcA", true, true⟩ = true := by
      simp [obsRun, h4, h5, isOkE, hSR]
    have herr : obsErr env ⟨"svcA", true, true⟩ = none := by
      simp [obsErr, h4, h5, hSR]
    simp [loopSt, hrun, herr, lookupKV_setKV_self]

theorem C9_witness :
    (monitor envW9).result = some plSuccess ∧
    ∃ st, (monitor envW9).written = some st ∧
      lookupKV st "svcA" = some ⟨true, envW9.clock 0, none⟩ :=
  C9_thm envW9 [] false 2 rfl rfl rfl rfl rfl

/-! ### Claim C2 -/

/-- Claim C2, counterexample to "restricted to the keys present in both":
prior observations {"a": running} and a tick that newly monitors service
"b" agree on every common key (so the claim predicts no event), yet the
code compares the full maps and emits the node-health change event. -/
theorem C2_cex :
    (monitor envC2).events ≠ [] ∧
    dictEqOnCommon (runningMap [("a", (⟨true, 0, none⟩ : Obs))])
      (runningMap ((monitor envC2).written.getD [])) = true := by
  decide

/-- Claim C2 (amended): the node-health change event is emitted exactly
when the prior observations are non-empty and the prior running-map
differs from the new running-map compared as whole dicts (a key present
only on one side counts as a difference), and it is emitted at most once
per tick. -/
theorem C2_thm (env : Env) (specs : List ServiceSpec)
    (prior : List (String × Obs)) (h1 : env.init_ok = true)
    (h2 : env.shared_check = none) (h3 : env.load = .ok specs prior)
    (h4 : queriesOk env specs)
    (hname : ∀ s ∈ specs, s.name ≠ "ctdb_shared_volume") :
    ∃ st, (monitor env).written = some st ∧
      ((monitor env).events ≠ [] ↔
        (prior ≠ [] ∧ dictEq (runningMap prior) (runningMap st) = false)) ∧
      (monitor env).events.length ≤ 1 := by
  rw [monitor_ok_written env specs prior h1 h2 h3 h4 hname]
  refine ⟨loopSt env specs prior 0, rfl, ?_, ?_⟩
  · by_cases hc : runningMap prior ≠ [] ∧
        dictEq (runningMap prior)
          (runningMap (loopSt env specs prior 0)) = false
    · rw [if_pos hc]
      simp only [ne_eq, List.cons_ne_nil, not_false_eq_true, true_iff]
      refine ⟨?_, hc.2⟩
      intro hp
      exact hc.1 (by rw [hp]; rfl)
    · rw [if_neg hc]
      simp only [ne_eq, not_true_eq_false, false_iff]
      intro hcon
      refine hc ⟨?_, hcon.2⟩
      intro hr
      exact hcon.1 ((runningMap_eq_nil prior).mp hr)
  · by_cases hc : runningMap prior ≠ [] ∧
        dictEq (runningMap prior)
          (runningMap (loopSt env specs prior 0)) = false
    · simp [hc]
    · simp [hc]

theorem C2_witness :
    ∃ st, (monitor envW2).written = some st ∧
      ((monitor envW2).events ≠ [] ↔
        (([("svcA", (⟨true, 0, none⟩ : Obs))] : List (String × Obs)) ≠ [] ∧
          dictEq (runningMap [("svcA", (⟨true, 0, none⟩ : Obs))])
            (runningMap st) = false)) ∧
      (monitor envW2).events.length ≤ 1 :=
  C2_thm envW2 [⟨"svcA", true, true⟩] [("svcA", ⟨true, 0, none⟩)] rfl rfl rfl
    (by intro s hs _; rcases List.mem_singleton.mp hs with rfl; rfl)
    (by intro s hs; rcases List.mem_singleton.mp hs with rfl; decide)

/-! ### Claim C3 -/

/-- Claim C3 (confirmed): every enabled, monitored service whose start
attempt raises gets observation running = false with the raised message
as error; the tick result becomes FAILURE naming a failing service; the
loop continues past each failure (every monitored spec still gets an
observation); and when several starts fail in one tick, the last failure
in iteration order determines the reported offender. -/
theorem C3_thm (env : Env) (specs : List ServiceSpec)
    (prior : List (String × Obs)) (s : ServiceSpec) (e : String)
    (h1 : env.init_ok = true) (h2 : env.shared_check = none)
    (h3 : env.load = .ok specs prior) (h4 : queriesOk env specs)
    (hnn : (specs.map fun t => t.name).Nodup)
    (hname : ∀ t ∈ specs, t.name ≠ "ctdb_shared_volume")
    (hlast : (specs.filter fun t => startFails env t).getLast? = some s)
    (he : env.start s.name = .error e) :
    (monitor env).result = some ⟨"MONITOR", "FAILURE",
      some (s.name ++ ": service failed to start: " ++ e), some s.name⟩ ∧
    ∃ st, (monitor env).written = some st ∧
      (∀ t ∈ specs, ∀ e', startFails env t = true →
        env.start t.name = .error e' →
        ∃ ts, lookupKV st t.name = some ⟨false, ts, some e'⟩) ∧
      ∀ t ∈ specs, t.monitor_enable = true →
        ∃ o, lookupKV st t.name = some o := by
  rw [monitor_ok_written env specs prior h1 h2 h3 h4 hname]
  constructor
  · have hpl := loopPl_last_some env specs plSuccess s hlast
    have hserr : startErr env s = e := by simp [startErr, he]
    simp [hpl, startFailPayload, hserr]
  · refine ⟨loopSt env specs prior 0, rfl, ?_, ?_⟩
    · intro t ht e' hf he'
      obtain ⟨hmon, hrun, herr⟩ := startFails_elim env t e' hf he'
      obtain ⟨ts, hl⟩ := loopSt_lookup_mem env t hmon specs hnn ht prior 0
      rw [hrun, herr] at hl
      exact ⟨ts, hl⟩
    · intro t ht hmt
      obtain ⟨ts, hl⟩ := loopSt_lookup_mem env t hmt specs hnn ht prior 0
      exact ⟨_, hl⟩

theorem C3_witness :
    (monitor envW3b).result = some ⟨"MONITOR", "FAILURE",
      some ("s2" ++ ": service failed to start: " ++ "s2 down"),
      some "s2"⟩ ∧
    ∃ st, (monitor envW3b).written = some st ∧
      (∃ ts, lookupKV st "s1" = some ⟨false, ts, some "s1 down"⟩) ∧
      (∃ ts, lookupKV st "s2" = some ⟨false, ts, some "s2 down"⟩) := by
  have h := C3_thm envW3b [⟨"s1", true, true⟩, ⟨"s2", true, true⟩] []
    ⟨"s2", true, true⟩ "s2 down" rfl rfl rfl
    (by
      intro s hs _
      rcases List.mem_cons.mp hs with rfl | hs'
      · rfl
      · rcases List.mem_singleton.mp hs' with rfl
        rfl)
    (by decide)
    (by
      intro s hs
      rcases List.mem_cons.mp hs with rfl | hs'
      · decide
      · rcases List.mem_singleton.mp hs' with rfl
        decide)
    (by decide) rfl
  obtain ⟨hres, st, hw, hfail, _⟩ := h
  refine ⟨hres, st, hw, ?_, ?_⟩
  · exact hfail ⟨"s1", true, true⟩ (by decide) "s1 down" (by decide) rfl
  · exact hfail ⟨"s2", true, true⟩ (by decide) "s2 down" (by decide) rfl

/-! ### Claim C4 -/

/-- Claim C4 (confirmed): for every monitored spec with service_enable
false whose query returns normally, the tick issues a disable update
exactly when the actual enabled flag is true and a stop exactly when the
actual state is RUNNING, and records observation running = false with no
error — for every possible outcome of the stop call (the environment's
stop oracle is unconstrained, mirroring that the source discards the
`service.stop` result). -/
theorem C4_thm (env : Env) (specs : List ServiceSpec)
    (prior : List (String × Obs)) (s : ServiceSpec) (info : ServiceInfo)
    (h1 : env.init_ok = true) (h2 : env.shared_check = none)
    (h3 : env.load = .ok specs prior) (h4 : queriesOk env specs)
    (hnn : (specs.map fun t => t.name).Nodup)
    (hname : ∀ t ∈ specs, t.name ≠ "ctdb_shared_volume")
    (hs : s ∈ specs) (hm : s.monitor_enable = true)
    (hd : s.service_enable = false) (hq : env.query s.name = .ok info) :
    ∃ st ts pre post, (monitor env).written = some st ∧
      lookupKV st s.name = some ⟨false, ts, none⟩ ∧
      (monitor env).actions = pre ++
        ([Action.query s.name] ++
          (if info.enable = true then [Action.update info.id false]
           else []) ++
          (if info.state = "RUNNING" then [Action.stop s.name] else [])) ++
        post := by
  rw [monitor_ok_written env specs prior h1 h2 h3 h4 hname]
  have hrun : obsRun env s = false := by simp [obsRun, hq, hd]
  have herr : obsErr env s = none := by simp [obsErr, hq, hd]
  obtain ⟨ts, hl⟩ := loopSt_lookup_mem env s hm specs hnn hs prior 0
  obtain ⟨pre, post, hacts⟩ := loopActs_infix env s specs hs
  rw [hrun, herr] at hl
  refine ⟨loopSt env specs prior 0, ts, pre, post, rfl, hl, ?_⟩
  rw [hacts]
  have hact : actionsOf env s =
      [Action.query s.name] ++
        (if info.enable = true then [Action.update info.id false]
         else []) ++
        (if info.state = "RUNNING" then [Action.stop s.name] else []) := by
    simp [actionsOf, hm, hq, hd]
  rw [hact]

theorem C4_witness :
    ∃ st ts pre post, (monitor envW4).written = some st ∧
      lookupKV st "svcB" = some ⟨false, ts, none⟩ ∧
      (monitor envW4).actions = pre ++
        ([Action.query "svcB"] ++
          (if (true : Bool) = true then [Action.update 7 false] else []) ++
          (if ("RUNNING" : String) = "RUNNING" then [Action.stop "svcB"]
           else [])) ++ post :=
  C4_thm envW4 [⟨"svcB", false, true⟩] [] ⟨"svcB", false, true⟩
    ⟨"RUNNING", true, 7⟩ rfl rfl rfl
    (by intro s hs _; rcases List.mem_singleton.mp hs with rfl; rfl)
    (by decide)
    (by intro s hs; rcases List.mem_singleton.mp hs with rfl; decide)
    (by decide) rfl rfl rfl

/-! ### Claim C7 -/

/-- Claim C7 (confirmed): a spec with monitor_enable = false is passed
through by the tick: the new observations hold exactly the prior entry
for its name (in particular no entry is created when the prior had
none). -/
theorem C7_thm (env : Env) (specs : List ServiceSpec)
    (prior : List (String × Obs)) (s : ServiceSpec)
    (h1 : env.init_ok = true) (h2 : env.shared_check = none)
    (h3 : env.load = .ok specs prior) (h4 : queriesOk env specs)
    (hnn : (specs.map fun t => t.name).Nodup)
    (hname : ∀ t ∈ specs, t.name ≠ "ctdb_shared_volume")
    (hs : s ∈ specs) (hm : s.monitor_enable = false) :
    ∃ st, (monitor env).written = some st ∧
      lookupKV st s.name = lookupKV prior s.name := by
  rw [monitor_ok_written env specs prior h1 h2 h3 h4 hname]
  refine ⟨loopSt env specs prior 0, rfl, ?_⟩
  apply loopSt_lookup_notTouched env s.name specs ?_ prior 0
  intro t ht hmt hteq
  have : t = s := List.inj_on_of_nodup_map hnn ht hs hteq
  rw [this] at hmt
  rw [hmt] at hm
  cases hm

theorem C7_witness :
    ∃ st, (monitor envW7).written = some st ∧
      lookupKV st "u" = lookupKV [("u", (⟨true, 5, none⟩ : Obs))] "u" :=
  C7_thm envW7 [⟨"m", true, true⟩, ⟨"u", true, false⟩]
    [("u", ⟨true, 5, none⟩)] ⟨"u", true, false⟩ rfl rfl rfl
    (by
      intro s hs hmon
      rcases List.mem_cons.mp hs with rfl | hs'
      · rfl
      · rcases List.mem_singleton.mp hs' with rfl
        rfl)
    (by decide)
    (by
      intro s hs
      rcases List.mem_cons.mp hs with rfl | hs'
      · decide
      · rcases List.mem_singleton.mp hs' with rfl
        decide)
    (by decide) rfl

/-! ### Claim C10 -/

/-- Claim C10 (confirmed): every observation entry the MONITOR loop writes
satisfies the invariant that a present error message implies
running = false. -/
theorem C10_thm (env : Env) (specs : List ServiceSpec)
    (prior st : List (String × Obs)) (h1 : env.init_ok = true)
    (h2 : env.shared_check = none) (h3 : env.load = .ok specs prior)
    (h4 : queriesOk env specs)
    (hnn : (specs.map fun t => t.name).Nodup)
    (hname : ∀ t ∈ specs, t.name ≠ "ctdb_shared_volume")
    (hw : (monitor env).written = some st) :
    ∀ s ∈ specs, s.monitor_enable = true →
      ∀ o, lookupKV st s.name = some o → o.error ≠ none →
        o.running = false := by
  rw [monitor_ok_written env specs prior h1 h2 h3 h4 hname] at hw
  simp only [Option.some.injEq] at hw
  intro s hs hm o hlook herr
  obtain ⟨ts, hl⟩ := loopSt_lookup_mem env s hm specs hnn hs prior 0
  rw [← hw] at hlook
  rw [hl] at hlook
  have ho : o = ⟨obsRun env s, ts, obsErr env s⟩ :=
    (Option.some.injEq _ _ ▸ hlook).symm
  rw [ho] at herr ⊢
  exact obsErr_run_false env s herr

theorem C10_witness :
    (monitor envW10).written = some [("a", ⟨false, 0, some "boom"⟩)] ∧
    (⟨false, 0, some "boom"⟩ : Obs).running = false :=
  ⟨by decide,
    C10_thm envW10 [⟨"a", true, true⟩] [] [("a", ⟨false, 0, some "boom"⟩)]
      rfl rfl rfl
      (by intro s hs _; rcases List.mem_singleton.mp hs with rfl; rfl)
      (by decide)
      (by intro s hs; rcases List.mem_singleton.mp hs with rfl; decide)
      (by decide) ⟨"a", true, true⟩ (by decide) rfl
      ⟨false, 0, some "boom"⟩ (by decide) (by decide)⟩

/-! ### Claim C5 -/

/-- Claim C5, counterexample: two successive reconcile runs with the
service RUNNING and enabled throughout (no external change) do not
produce identical ServiceObservation output — the `last_check` timestamp
differs between the runs; and the first run can emit a change event when
the stale prior observation disagreed with the actual state. -/
theorem C5_cex :
    (monitor envC5a).written = some [("a", ⟨true, 0, none⟩)] ∧
    (monitor envC5a).events ≠ [] ∧
    envC5b.load = .ok [⟨"a", true, true⟩] [("a", ⟨true, 0, none⟩)] ∧
    (monitor envC5b).written ≠ (monitor envC5a).written := by
  decide

/-- Claim C5 (amended): running reconcile twice in succession with no
external state change (every monitored spec enabled, its service RUNNING
with the enabled flag set, under both runs) produces second-run
observations identical to the first's except for the `last_check`
timestamps, and the second run emits no change event. -/
theorem C5_thm (env1 env2 : Env) (specs : List ServiceSpec)
    (prior st1 : List (String × Obs))
    (h1a : env1.init_ok = true) (h1b : env1.shared_check = none)
    (h1c : env1.load = .ok specs prior)
    (h2a : env2.init_ok = true) (h2b : env2.shared_check = none)
    (h2c : env2.load = .ok specs st1)
    (hpn : (prior.map Prod.fst).Nodup)
    (hnn : (specs.map fun t => t.name).Nodup)
    (hname : ∀ t ∈ specs, t.name ≠ "ctdb_shared_volume")
    (hrun1 : ∀ s ∈ specs, s.monitor_enable = true →
      s.service_enable = true ∧
        ∃ i1, env1.query s.name = .ok ⟨"RUNNING", true, i1⟩)
    (hrun2 : ∀ s ∈ specs, s.monitor_enable = true →
      s.service_enable = true ∧
        ∃ i2, env2.query s.name = .ok ⟨"RUNNING", true, i2⟩)
    (hw1 : (monitor env1).written = some st1) :
    ∃ st2, (monitor env2).written = some st2 ∧ dropTs st2 = dropTs st1 ∧
      (monitor env2).events = [] := by
  have hq1 : queriesOk env1 specs := by
    intro s hs hm
    obtain ⟨_, i1, hq⟩ := hrun1 s hs hm
    simp [isOkE, hq]
  have hq2 : queriesOk env2 specs := by
    intro s hs hm
    obtain ⟨_, i2, hq⟩ := hrun2 s hs hm
    simp [isOkE, hq]
  rw [monitor_ok_written env1 specs prior h1a h1b h1c hq1 hname] at hw1
  simp only [Option.some.injEq] at hw1
  have hobs1 : ∀ s ∈ specs, s.monitor_enable = true →
      obsRun env1 s = true ∧ obsErr env1 s = none := by
    intro s hs hm
    obtain ⟨hse, i1, hq⟩ := hrun1 s hs hm
    exact ⟨by simp [obsRun, hq, hse], by simp [obsErr, hq, hse]⟩
  have hobs2 : ∀ s ∈ specs, s.monitor_enable = true →
      obsRun env2 s = true ∧ obsErr env2 s = none := by
    intro s hs hm
    obtain ⟨hse, i2, hq⟩ := hrun2 s hs hm
    exact ⟨by simp [obsRun, hq, hse], by simp [obsErr, hq, hse]⟩
  have hinv : ∀ s ∈ specs, s.monitor_enable = true → ∃ ts,
      lookupKV st1 s.name = some ⟨obsRun env2 s, ts, obsErr env2 s⟩ := by
    intro s hs hm
    obtain ⟨ts, hl⟩ := loopSt_lookup_mem env1 s hm specs hnn hs prior 0
    rw [hw1] at hl
    refine ⟨ts, ?_⟩
    rw [hl, (hobs1 s hs hm).1, (hobs1 s hs hm).2, (hobs2 s hs hm).1,
      (hobs2 s hs hm).2]
  have hdrop : dropTs (loopSt env2 specs st1 0) = dropTs st1 :=
    loopSt_dropTs_frozen env2 specs hnn st1 0 hinv
  have hrm : runningMap (loopSt env2 specs st1 0) = runningMap st1 :=
    runningMap_eq_of_dropTs _ _ hdrop
  have hst1n : (st1.map Prod.fst).Nodup := by
    rw [← hw1]
    exact loopSt_keys_nodup env1 specs prior 0 hpn
  have hdeq : dictEq (runningMap st1)
      (runningMap (loopSt env2 specs st1 0)) = true := by
    rw [hrm]
    refine dictEq_refl _ ?_
    rw [keys_runningMap]
    exact hst1n
  rw [monitor_ok_written env2 specs st1 h2a h2b h2c hq2 hname]
  refine ⟨loopSt env2 specs st1 0, rfl, hdrop, ?_⟩
  simp [hdeq]

theorem C5_witness :
    ∃ st2, (monitor envW5b).written = some st2 ∧
      dropTs st2 = dropTs [("a", ⟨true, 0, none⟩)] ∧
      (monitor envW5b).events = [] :=
  C5_thm envW5a envW5b [⟨"a", true, true⟩] [] [("a", ⟨true, 0, none⟩)]
    rfl rfl rfl rfl rfl rfl (by decide) (by decide)
    (by intro s hs; rcases List.mem_singleton.mp hs with rfl; decide)
    (by
      intro s hs _
      rcases List.mem_singleton.mp hs with rfl
      exact ⟨rfl, 0, rfl⟩)
    (by
      intro s hs _
      rcases List.mem_singleton.mp hs with rfl
      exact ⟨rfl, 0, rfl⟩)
    (by decide)

end CtdbEvent
